import Mathlib

/-!
Shallow embedding of `raiden/connection_manager.py` (class `ConnectionManager`).

Modelling conventions:
* Python ints are `Int`, the float `joinable_funds_target` is an exact rational `ℚ`,
  and Python `int(x)` on a quotient truncates toward zero (`ratTrunc`).
* The external collaborators (ledger view, token balance, participants set, shuffle)
  are an explicit environment record `Env`; the random `shuffle` is a function field,
  constrained to be a permutation only where a claim needs it.
* Ledger write operations are recorded in an output list `LedgerOp` in dispatch order;
  read-only queries are reads of `Env` fields and produce no `LedgerOp`.
* The `while` loop of `retry_connect` is unrolled with explicit fuel.
* Python `==` between values of different built-in types (list vs int) is modelled by
  the value universe `PyVal` with `pyEq` returning `false` across constructors.
-/

namespace RaidenCM

abbrev Address := Nat

/-- `unhexlify(b'2' * 40)`: twenty bytes of `0x22`. -/
def BOOTSTRAP_ADDR : Address := 0x2222222222222222222222222222222222222222

/-- One element of the result of `views.get_channelstate_open`: partner address,
our side's `contract_balance`, and the channel identifier. -/
structure ChannelState where
  partner : Address
  our_deposit : Int
  identifier : Nat
deriving DecidableEq, Repr

/-- The mutable fields of `ConnectionManager` guarded by `self.lock`. -/
structure CMState where
  funds : Int
  initial_channel_target : Int
  joinable_funds_target : ℚ
deriving DecidableEq, Repr

/-- External world as observed through the read-only queries the class makes. -/
structure Env where
  token_balance : Int
  channelstate_open : List ChannelState
  participants : List Address
  sum_deposits : Int
  own_address : Address
  qty_network_channels : Nat
  shuffle : List Address → List Address

/-- Ledger write operations dispatched through `RaidenAPI` / `waiting`. -/
inductive LedgerOp where
  | channel_open (partner : Address)
  | set_total_channel_deposit (partner : Address) (amount : Int)
  | channel_batch_close (registry : Address) (partners : List Address)
  | wait_for_settle (registry : Address) (ids : List Nat)
deriving DecidableEq, Repr

/-- Python `int()` applied to a rational: truncation toward zero. -/
def ratTrunc (q : ℚ) : Int := if 0 ≤ q then ⌊q⌋ else ⌈q⌉

/-- `ConnectionManager._initial_funding_per_partner`.  The Python guard
`if self.initial_channel_target:` tests truthiness, i.e. the target being nonzero
(negative values are truthy). -/
def initial_funding_per_partner (s : CMState) : Int :=
  if s.initial_channel_target ≠ 0 then
    ratTrunc ((s.funds : ℚ) * (1 - s.joinable_funds_target) /
      (s.initial_channel_target : ℚ))
  else 0

/-- `ConnectionManager._funds_remaining`. -/
def funds_remaining (s : CMState) (env : Env) : Int :=
  if 0 < s.funds then min (s.funds - env.sum_deposits) env.token_balance else 0

/-- `ConnectionManager._leaving_state`. -/
def leaving_state (s : CMState) : Bool := s.initial_channel_target < 1

/-- The `known` set built inside `_find_new_partners`: partners of all open
channels plus the bootstrap address and our own address (membership only). -/
def known_addresses (env : Env) : List Address :=
  BOOTSTRAP_ADDR :: env.own_address :: env.channelstate_open.map (·.partner)

/-- `ConnectionManager._find_new_partners`: participants minus `known`, shuffled. -/
def find_new_partners (env : Env) : List Address :=
  env.shuffle (env.participants.filter (fun a => a ∉ known_addresses env))

/-- Python built-in values of the two types compared at
`if possible_new_partners == 0:` in `_open_channels`. -/
inductive PyVal where
  | int (n : Int)
  | list (xs : List Address)
deriving DecidableEq

/-- Python `==` over `PyVal`: equality within a type, `False` across types. -/
def pyEq : PyVal → PyVal → Bool
  | .int a, .int b => a == b
  | .list a, .list b => a == b
  | _, _ => false

/-- Open channels with the bootstrap channel filtered out (`_open_channels` step 1). -/
def non_bootstrap_channels (env : Env) : List ChannelState :=
  env.channelstate_open.filter (fun c => c.partner ≠ BOOTSTRAP_ADDR)

/-- `funded_channels` of `_open_channels`: own deposit at least the funding target. -/
def funded_channels (s : CMState) (env : Env) : List ChannelState :=
  (non_bootstrap_channels env).filter
    (fun c => initial_funding_per_partner s ≤ c.our_deposit)

/-- `nonfunded_channels` of `_open_channels`, via the literal `not in` test. -/
def nonfunded_channels (s : CMState) (env : Env) : List ChannelState :=
  (non_bootstrap_channels env).filter (fun c => c ∉ funded_channels s env)

/-- `ConnectionManager._open_channels`: returns the bool result together with the
list of partners for which `_join_partner` greenlets are dispatched.  The local
variables of the source (`funded_channels`, `nonfunded_channels`,
`possible_new_partners`, `n_to_join`) are the named definitions above, inlined. -/
def open_channels (s : CMState) (env : Env) : Bool × List Address :=
  if pyEq (.list (find_new_partners env)) (.int 0) = true then (false, [])
  else if s.initial_channel_target ≤ ((funded_channels s env).length : Int) then (false, [])
  else if nonfunded_channels s env = [] ∧ find_new_partners env = [] then (false, [])
  else
    (true,
      ((nonfunded_channels s env).map (·.partner) ++ find_new_partners env).take
        (s.initial_channel_target - ((funded_channels s env).length : Int)).toNat)

/-- `ConnectionManager._join_partner`: open (absorbing duplicate-channel errors),
then deposit the per-partner funding amount (absorbing the listed errors). -/
def join_partner (s : CMState) (p : Address) : List LedgerOp :=
  [.channel_open p, .set_total_channel_deposit p (initial_funding_per_partner s)]

/-- The two `InvalidAmount` variants raised by `connect`. -/
inductive ConnectError where
  | insufficient_balance
  | non_positive_funds
deriving DecidableEq, Repr

/-- `ConnectionManager.connect`: the error raised (if any), the resulting state,
and the ledger write operations dispatched.  The balance check precedes the
positivity check, matching the source order. -/
def connect (s : CMState) (env : Env) (funds : Int) (initial_channel_target : Int)
    (joinable_funds_target : ℚ) : Option ConnectError × CMState × List LedgerOp :=
  if env.token_balance < funds then (some .insufficient_balance, s, [])
  else if funds ≤ 0 then (some .non_positive_funds, s, [])
  else
    let s' : CMState := ⟨funds, initial_channel_target, joinable_funds_target⟩
    if env.qty_network_channels = 0 then (none, s', [.channel_open BOOTSTRAP_ADDR])
    else (none, s', (open_channels s' env).2.flatMap (join_partner s'))

/-- The `joining_funds` local of `ConnectionManager.join_channel`:
`min(partner_deposit, self._funds_remaining, self._initial_funding_per_partner)`. -/
def joining_funds (s : CMState) (env : Env) (partner_deposit : Int) : Int :=
  min partner_deposit (min (funds_remaining s env) (initial_funding_per_partner s))

/-- `ConnectionManager.join_channel`: deposit operations dispatched (the state
fields are never written by this method). -/
def join_channel (s : CMState) (env : Env) (partner : Address)
    (partner_deposit : Int) : List LedgerOp :=
  if joining_funds s env partner_deposit ≤ 0 ∨ leaving_state s = true then []
  else [.set_total_channel_deposit partner (joining_funds s env partner_deposit)]

/-- `ConnectionManager.retry_connect`: the `while` loop unrolled with fuel;
returns the partners joined across the iterations that ran. -/
def retry_connect : Nat → CMState → Env → List Address
  | 0, _, _ => []
  | fuel + 1, s, env =>
    if 0 < funds_remaining s env ∧ leaving_state s = false then
      match open_channels s env with
      | (true, joins) => joins ++ retry_connect fuel s env
      | (false, joins) => joins
    else []

/-- `ConnectionManager.leave`: new state, ledger operations in dispatch order,
and the returned snapshot `channels_to_close`. -/
def leave (s : CMState) (env : Env) (registry_address : Address) :
    CMState × List LedgerOp × List ChannelState :=
  let s' : CMState := { s with initial_channel_target := 0 }
  let channels_to_close := env.channelstate_open
  let partner_addresses := channels_to_close.map (·.partner)
  let channel_ids := channels_to_close.map (·.identifier)
  (s', [.channel_batch_close registry_address partner_addresses,
        .wait_for_settle registry_address channel_ids], channels_to_close)

/-- Failure mode of calling a Python method with the wrong number of arguments. -/
inductive PyCallError where
  | missing_argument
deriving DecidableEq, Repr

/-- Calling `self.leave` with an argument list, checking arity as Python does:
`leave` requires exactly one positional argument `registry_address`. -/
def leave_apply (s : CMState) (env : Env) (args : List Address) :
    Except PyCallError (CMState × List LedgerOp × List ChannelState) :=
  match args with
  | [registry_address] => .ok (leave s env registry_address)
  | _ => .error .missing_argument

/-- `ConnectionManager.leave_async`: `gevent.spawn(self.leave)` supplies no
arguments to `self.leave`, so the spawned call is `leave_apply` on `[]`. -/
def leave_async (s : CMState) (env : Env) :
    Except PyCallError (CMState × List LedgerOp × List ChannelState) :=
  leave_apply s env []

/-- The state established by `ConnectionManager.__init__`. -/
def initialCMState : CMState := ⟨0, 0, 0⟩

/-- A concrete environment with no channels and no participants. -/
def envEmpty : Env := ⟨50, [], [], 0, 1, 0, id⟩

/-- A concrete environment: one funded channel with partner `5`, one empty channel
with partner `7`, participants `{5, 9}`, own address `1`, identity shuffle. -/
def envA : Env := ⟨100, [⟨5, 60, 1⟩, ⟨7, 0, 2⟩], [5, 9], 30, 1, 2, id⟩

theorem pyEq_list_int (xs : List Address) (n : Int) :
    pyEq (PyVal.list xs) (PyVal.int n) = false := rfl

theorem ratTrunc_intCast (n : Int) : ratTrunc ((n : ℚ)) = n := by
  unfold ratTrunc
  split <;> simp

theorem ratTrunc_eq_floor (q : ℚ) (h : 0 ≤ q) : ratTrunc q = ⌊q⌋ := if_pos h

theorem ifpp_100_3 : initial_funding_per_partner ⟨100, 3, 2/5⟩ = 20 := by
  show ratTrunc (((100 : Int) : ℚ) * (1 - (2/5 : ℚ)) / ((3 : Int) : ℚ)) = 20
  rw [show ((100 : Int) : ℚ) * (1 - (2/5 : ℚ)) / ((3 : Int) : ℚ) = ((20 : Int) : ℚ) by
    norm_num, ratTrunc_intCast]

theorem ifpp_100_1 : initial_funding_per_partner ⟨100, 1, 2/5⟩ = 60 := by
  show ratTrunc (((100 : Int) : ℚ) * (1 - (2/5 : ℚ)) / ((1 : Int) : ℚ)) = 60
  rw [show ((100 : Int) : ℚ) * (1 - (2/5 : ℚ)) / ((1 : Int) : ℚ) = ((60 : Int) : ℚ) by
    norm_num, ratTrunc_intCast]

/-- Claim C1, counterexample: the claim states the per-partner funding amount is `0`
whenever `initialChannelTarget ≤ 0`, but at `funds = 100`, `initialChannelTarget = -3`,
`joinableFundsTarget = 2/5` the code computes `-20`, because the Python truthiness
guard treats a negative target as nonzero. -/
theorem claim1_counterexample :
    initial_funding_per_partner ⟨100, -3, 2/5⟩ = -20 ∧
    initial_funding_per_partner ⟨100, -3, 2/5⟩ ≠ 0 := by
  have h : initial_funding_per_partner ⟨100, -3, 2/5⟩ = -20 := by
    show ratTrunc (((100 : Int) : ℚ) * (1 - (2/5 : ℚ)) / ((-3 : Int) : ℚ)) = -20
    rw [show ((100 : Int) : ℚ) * (1 - (2/5 : ℚ)) / ((-3 : Int) : ℚ) = ((-20 : Int) : ℚ) by
      norm_num, ratTrunc_intCast]
  exact ⟨h, by rw [h]; decide⟩

/-- Claim C1, amended: for controller states respecting the data model
(`funds ≥ 0`, `joinableFundsTarget ∈ [0,1]`), the derived per-partner funding amount
equals `floor(funds × (1 − joinableFundsTarget) / initialChannelTarget)` in exact
arithmetic when `initialChannelTarget > 0`, and equals `0` when
`initialChannelTarget = 0` (a negative target instead yields the toward-zero
truncation of the same formula). -/
theorem claim1_amended (s : CMState) (hf : 0 ≤ s.funds)
    (_hj0 : 0 ≤ s.joinable_funds_target) (hj1 : s.joinable_funds_target ≤ 1) :
    (0 < s.initial_channel_target →
      initial_funding_per_partner s =
        ⌊(s.funds : ℚ) * (1 - s.joinable_funds_target) / (s.initial_channel_target : ℚ)⌋) ∧
    (s.initial_channel_target = 0 → initial_funding_per_partner s = 0) := by
  constructor
  · intro ht
    unfold initial_funding_per_partner
    rw [if_pos ht.ne']
    apply ratTrunc_eq_floor
    apply div_nonneg
    · exact mul_nonneg (by exact_mod_cast hf) (by linarith)
    · exact_mod_cast ht.le
  · intro ht
    unfold initial_funding_per_partner
    rw [if_neg (fun hh => hh ht)]

/-- Witness for C1 at `funds = 100`, `initialChannelTarget = 3`,
`joinableFundsTarget = 2/5`. -/
theorem claim1_witness :
    initial_funding_per_partner ⟨100, 3, 2/5⟩ =
      ⌊((100 : Int) : ℚ) * (1 - (2/5 : ℚ)) / ((3 : Int) : ℚ)⌋ :=
  (claim1_amended ⟨100, 3, 2/5⟩ (by decide) (by norm_num) (by norm_num)).1 (by decide)

/-- Claim C2: `connect` raises `InvalidAmount` and leaves the three strategy fields
unchanged with no ledger operation when `funds ≤ 0` or the token balance is below
`funds`; otherwise it raises nothing and overwrites all three fields with the
arguments. -/
theorem claim2 (s : CMState) (env : Env) (funds initial_channel_target : Int)
    (joinable_funds_target : ℚ) :
    (funds ≤ 0 ∨ env.token_balance < funds →
      ∃ e, connect s env funds initial_channel_target joinable_funds_target =
        (some e, s, [])) ∧
    (0 < funds ∧ funds ≤ env.token_balance →
      (connect s env funds initial_channel_target joinable_funds_target).1 = none ∧
      (connect s env funds initial_channel_target joinable_funds_target).2.1 =
        ⟨funds, initial_channel_target, joinable_funds_target⟩) := by
  constructor
  · intro h
    unfold connect
    split_ifs with hb hf hq
    · exact ⟨_, rfl⟩
    · exact ⟨_, rfl⟩
    · rcases h with h | h
      · exact absurd h hf
      · exact absurd h hb
    · rcases h with h | h
      · exact absurd h hf
      · exact absurd h hb
  · rintro ⟨h1, h2⟩
    unfold connect
    rw [if_neg (not_lt.2 h2), if_neg (not_le.2 h1)]
    split_ifs <;> exact ⟨rfl, rfl⟩

/-- Witness for C2: rejecting `funds = 0`, and accepting `funds = 10` against a
balance of `50`. -/
theorem claim2_witness :
    (∃ e, connect initialCMState envEmpty 0 3 (2/5) = (some e, initialCMState, [])) ∧
    (connect initialCMState envEmpty 10 3 (2/5)).1 = none ∧
    (connect initialCMState envEmpty 10 3 (2/5)).2.1 = ⟨10, 3, 2/5⟩ :=
  ⟨(claim2 initialCMState envEmpty 0 3 (2/5)).1 (Or.inl (by decide)),
   (claim2 initialCMState envEmpty 10 3 (2/5)).2 ⟨by decide, by decide⟩⟩

/-- Claim C3: the claim says `leave_async` resolves to the result of
`leave(registry_address)`, but `gevent.spawn(self.leave)` passes no argument while
`leave` requires `registry_address`, so the spawned call always fails with a
missing-argument error, unlike any direct `leave(registry_address)` call (shown
here at registry address `7`). -/
theorem claim3 :
    leave_async initialCMState envEmpty = Except.error PyCallError.missing_argument ∧
    leave_apply initialCMState envEmpty [7] =
      Except.ok (leave initialCMState envEmpty 7) :=
  ⟨rfl, rfl⟩

/-- Claim C4: `_open_channels` returns `false` and dispatches no joins when the
funded non-bootstrap channels already meet the target, and also when both the
nonfunded channels and the eligible new partners are empty. -/
theorem claim4 (s : CMState) (env : Env) :
    (s.initial_channel_target ≤ ((funded_channels s env).length : Int) →
      open_channels s env = (false, [])) ∧
    (nonfunded_channels s env = [] ∧ find_new_partners env = [] →
      open_channels s env = (false, [])) := by
  constructor
  · intro h
    unfold open_channels
    rw [if_neg (by simp [pyEq_list_int]), if_pos h]
  · intro h
    unfold open_channels
    rw [if_neg (by simp [pyEq_list_int])]
    by_cases h2 : s.initial_channel_target ≤ ((funded_channels s env).length : Int)
    · rw [if_pos h2]
    · rw [if_neg h2, if_pos h]

/-- Witness for C4: target `1` already met by the funded channel of `envA`, and an
empty network for the second branch. -/
theorem claim4_witness :
    open_channels ⟨100, 1, 2/5⟩ envA = (false, []) ∧
    open_channels ⟨100, 3, 2/5⟩ envEmpty = (false, []) := by
  constructor
  · apply (claim4 ⟨100, 1, 2/5⟩ envA).1
    simp only [funded_channels, non_bootstrap_channels, ifpp_100_1, envA]
    decide
  · exact (claim4 ⟨100, 3, 2/5⟩ envEmpty).2 ⟨rfl, rfl⟩

/-- Claim C5: when `_open_channels` does not terminate early, it dispatches joins
for exactly the nonfunded-channel partners followed by the new candidates,
truncated to `initial_channel_target - len(funded)` entries, and returns `true`. -/
theorem claim5 (s : CMState) (env : Env)
    (h1 : ((funded_channels s env).length : Int) < s.initial_channel_target)
    (h2 : ¬(nonfunded_channels s env = [] ∧ find_new_partners env = [])) :
    open_channels s env =
      (true,
        ((nonfunded_channels s env).map (·.partner) ++ find_new_partners env).take
          (s.initial_channel_target - ((funded_channels s env).length : Int)).toNat) := by
  unfold open_channels
  rw [if_neg (by simp [pyEq_list_int]), if_neg (not_le.2 h1), if_neg h2]

/-- Witness for C5 on `envA` with target `3`: the nonfunded partner `7` comes first,
then the fresh candidate `9`. -/
theorem claim5_witness :
    open_channels ⟨100, 3, 2/5⟩ envA = (true, [7, 9]) := by
  have efunded : funded_channels ⟨100, 3, 2/5⟩ envA = [⟨5, 60, 1⟩] := by
    simp only [funded_channels, non_bootstrap_channels, ifpp_100_3, envA]
    decide
  have enonfunded : nonfunded_channels ⟨100, 3, 2/5⟩ envA = [⟨7, 0, 2⟩] := by
    simp only [nonfunded_channels, funded_channels, non_bootstrap_channels,
      ifpp_100_3, envA]
    decide
  rw [claim5 ⟨100, 3, 2/5⟩ envA (by rw [efunded]; decide) (by simp [enonfunded]),
    efunded, enonfunded]
  decide

/-- Claim C6: Python `==` between the partner list and the integer `0` is always
`False`, so `_open_channels` never returns `false` through that guard: it returns
`false` exactly when the funded count meets the target or both the nonfunded
channels and the candidate partners are empty. -/
theorem claim6 (s : CMState) (env : Env) :
    pyEq (PyVal.list (find_new_partners env)) (PyVal.int 0) = false ∧
    ((open_channels s env).1 = false ↔
      s.initial_channel_target ≤ ((funded_channels s env).length : Int) ∨
        (nonfunded_channels s env = [] ∧ find_new_partners env = [])) := by
  refine ⟨pyEq_list_int _ _, ?_⟩
  unfold open_channels
  rw [if_neg (by simp [pyEq_list_int])]
  by_cases h2 : s.initial_channel_target ≤ ((funded_channels s env).length : Int)
  · rw [if_pos h2]
    simp [h2]
  · rw [if_neg h2]
    by_cases h3 : nonfunded_channels s env = [] ∧ find_new_partners env = []
    · rw [if_pos h3]
      simp [h2, h3]
    · rw [if_neg h3]
      simp [h2, h3]

/-- Claim C7: `join_channel` computes
`amount = min(partner_deposit, funds_remaining, initial_funding_per_partner)`;
it dispatches nothing when `amount ≤ 0` or the controller is leaving
(`initial_channel_target < 1`), and otherwise dispatches exactly one
`set_total_channel_deposit` with exactly that amount. -/
theorem claim7 (s : CMState) (env : Env) (partner : Address) (partner_deposit : Int) :
    (joining_funds s env partner_deposit ≤ 0 ∨ leaving_state s = true →
      join_channel s env partner partner_deposit = []) ∧
    (0 < joining_funds s env partner_deposit ∧ leaving_state s = false →
      join_channel s env partner partner_deposit =
        [LedgerOp.set_total_channel_deposit partner
          (joining_funds s env partner_deposit)]) := by
  constructor
  · intro h
    unfold join_channel
    rw [if_pos h]
  · rintro ⟨h1, h2⟩
    unfold join_channel
    rw [if_neg]
    rintro (h | h)
    · omega
    · rw [h2] at h
      exact Bool.false_ne_true h

/-- Witness for C7: on `envA` the deposit is capped at the per-partner funding `20`,
while the freshly constructed state dispatches nothing. -/
theorem claim7_witness :
    join_channel ⟨100, 3, 2/5⟩ envA 9 50 = [LedgerOp.set_total_channel_deposit 9 20] ∧
    join_channel initialCMState envA 9 50 = [] := by
  have ej : joining_funds ⟨100, 3, 2/5⟩ envA 50 = 20 := by
    simp only [joining_funds, funds_remaining, ifpp_100_3, envA]
    decide
  constructor
  · rw [(claim7 ⟨100, 3, 2/5⟩ envA 9 50).2 ⟨by rw [ej]; decide, rfl⟩, ej]
  · exact (claim7 initialCMState envA 9 50).1 (Or.inr rfl)

/-- Claim C8: for a shuffle that permutes its input and a duplicate-free participant
set, `_find_new_partners` returns a permutation of the participants minus the open
channels' partners, the own address and the bootstrap address; in particular none of
those excluded addresses ever appears, and no state is written. -/
theorem claim8 (env : Env) (hshuffle : ∀ l : List Address, (env.shuffle l).Perm l)
    (hnodup : env.participants.Nodup) :
    (find_new_partners env).Nodup ∧
    (find_new_partners env).Perm
      (env.participants.filter (fun a => a ∉ known_addresses env)) ∧
    ∀ a ∈ find_new_partners env,
      a ≠ BOOTSTRAP_ADDR ∧ a ≠ env.own_address ∧
        a ∉ env.channelstate_open.map (·.partner) := by
  have hperm := hshuffle (env.participants.filter (fun a => a ∉ known_addresses env))
  refine ⟨hperm.nodup_iff.2 (hnodup.filter _), hperm, ?_⟩
  intro a ha
  have hmem : a ∈ env.participants.filter (fun a => a ∉ known_addresses env) :=
    hperm.mem_iff.1 ha
  have h2 : a ∉ known_addresses env := by simpa using (List.mem_filter.1 hmem).2
  simp only [known_addresses, List.mem_cons, not_or] at h2
  exact ⟨h2.1, h2.2.1, h2.2.2⟩

/-- Witness for C8 on `envA` with the identity shuffle: only address `9` is
eligible. -/
theorem claim8_witness :
    (find_new_partners envA).Nodup ∧ (find_new_partners envA).Perm [9] := by
  have h := claim8 envA (fun l => List.Perm.refl l) (by decide)
  exact ⟨h.1, h.2.1⟩

/-- Claim C9: `leave` zeroes the channel target, batch-closes exactly the partners
of the snapshot of channels open at call time, waits for settlement of exactly that
snapshot's identifiers, and returns exactly that snapshot. -/
theorem claim9 (s : CMState) (env : Env) (registry_address : Address) :
    (leave s env registry_address).1.initial_channel_target = 0 ∧
    (leave s env registry_address).2.1 =
      [LedgerOp.channel_batch_close registry_address
        (env.channelstate_open.map (·.partner)),
       LedgerOp.wait_for_settle registry_address
        (env.channelstate_open.map (·.identifier))] ∧
    (leave s env registry_address).2.2 = env.channelstate_open :=
  ⟨rfl, rfl, rfl⟩

/-- Claim C10: the freshly constructed controller has zero funds, target and
joinable-funds fraction, is in leaving state with zero remaining funds, and both
`retry_connect` (for any fuel) and `join_channel` dispatch nothing from it. -/
theorem claim10 (env : Env) (partner : Address) (partner_deposit : Int) (fuel : Nat) :
    initialCMState.funds = 0 ∧ initialCMState.initial_channel_target = 0 ∧
    initialCMState.joinable_funds_target = 0 ∧
    leaving_state initialCMState = true ∧
    funds_remaining initialCMState env = 0 ∧
    retry_connect fuel initialCMState env = [] ∧
    join_channel initialCMState env partner partner_deposit = [] := by
  refine ⟨rfl, rfl, rfl, rfl, rfl, ?_, ?_⟩
  · cases fuel <;> rfl
  · unfold join_channel
    exact if_pos (Or.inr rfl)

end RaidenCM
